import Mathlib

/-!
Verification of the pytorch-hud MCP server (claude-pytorch-treehugger).

This file gives a shallow embedding, in Lean 4, of the pure computational
cores of the repository:

* the job status classification chains of `get_job_summary`,
  `get_failure_details`, `get_workflow_summary`
  (src/pytorch_hud/tools/hud_data.py) and of
  `get_recent_commits_with_jobs` / `get_recent_commit_status`
  (src/pytorch_hud/tools/hud_data.py, src/pytorch_hud/server/mcp_server.py);
* the per-commit job counting and job filtering of
  `get_recent_commits_with_jobs`;
* the retry loop of `PyTorchHudAPI._make_request`
  (src/pytorch_hud/api/client.py);
* the response-size governor `safe_json_dumps`
  (src/pytorch_hud/server/mcp_server.py);
* the default log patterns of `extract_log_patterns` together with a
  Brzozowski-derivative regular-expression matcher giving their search
  semantics (src/pytorch_hud/log_analysis/tools.py);
* the error-path structure of the log-analysis tools and of
  `download_log_to_file` (src/pytorch_hud/log_analysis/tools.py);
* the per-workflow aggregation of `get_workflow_summary`.

Python `job` dictionaries are modelled by the `Job` structure, with
`Option` fields standing for possibly-absent keys; `job.get(k, d)` is
`(field).getD d`.  A falsy entry of a `jobs` array (a `null` or an empty
object, which the Python code skips with `if not job: continue`) is
modelled as `none` in a `List (Option Job)`.
-/

/-- A CI job object as delivered by the HUD API (the fields the embedded
code reads).  `none` models an absent dictionary key. -/
structure Job where
  status : Option String := none
  conclusion : Option String := none
  failureLines : Option (List String) := none
  htmlUrl : Option String := none
  name : Option String := none
  durationS : Option ℚ := none
  id : Option Int := none
  deriving Repr, DecidableEq

/-- Status classes a job can be tallied under.  Each classification chain
in the source maps a job to one of these (or to `other` when no branch of
the chain matches). -/
inductive JobClass where
  | success
  | failure
  | skipped
  | queued
  | inProgress
  | pending
  | other
  deriving Repr, DecidableEq

/-- Classification chain of `get_job_summary`
(src/pytorch_hud/tools/hud_data.py lines 199-218): conclusion first
(success / failure / skipped), then status (queued / in_progress), then
conclusion pending. -/
def classifyJobSummary (job : Job) : JobClass :=
  let conclusion := job.conclusion.getD "unknown"
  let status := job.status.getD "unknown"
  if conclusion = "success" then .success
  else if conclusion = "failure" then .failure
  else if conclusion = "skipped" then .skipped
  else if status = "queued" then .queued
  else if status = "in_progress" then .inProgress
  else if conclusion = "pending" then .pending
  else .other

/-- Classification chain of `get_failure_details`
(src/pytorch_hud/tools/hud_data.py lines 419-447); the pending branch also
accepts `status == "pending"`. -/
def classifyFailureDetails (job : Job) : JobClass :=
  let conclusion := job.conclusion.getD "unknown"
  let status := job.status.getD "unknown"
  if conclusion = "success" then .success
  else if conclusion = "failure" then .failure
  else if conclusion = "skipped" then .skipped
  else if status = "queued" then .queued
  else if status = "in_progress" then .inProgress
  else if conclusion = "pending" ∨ status = "pending" then .pending
  else .other

/-- Classification chain of `get_workflow_summary`
(src/pytorch_hud/tools/hud_data.py lines 595-608); it has no queued
branch. -/
def classifyWorkflow (job : Job) : JobClass :=
  let conclusion := job.conclusion.getD "unknown"
  let status := job.status.getD "unknown"
  if conclusion = "success" then .success
  else if conclusion = "failure" then .failure
  else if conclusion = "skipped" then .skipped
  else if status = "in_progress" then .inProgress
  else if conclusion = "pending" then .pending
  else .other

/-- Classification chain shared by `get_recent_commits_with_jobs`
(src/pytorch_hud/tools/hud_data.py lines 841-855) and
`get_recent_commit_status` (src/pytorch_hud/server/mcp_server.py lines
1148-1159): queued, in-progress and pending-conclusion jobs all land in
the single `pending` bucket. -/
def classifyRecent (job : Job) : JobClass :=
  let conclusion := job.conclusion.getD "unknown"
  let status := job.status.getD "unknown"
  if conclusion = "success" then .success
  else if conclusion = "failure" then .failure
  else if conclusion = "skipped" then .skipped
  else if status = "queued" ∨ status = "in_progress" ∨ conclusion = "pending" then .pending
  else .other

/-- The `job_counts` tally of the recent-commit views: keys
`total, success, failure, pending, skipped`. -/
structure JobCounts where
  total : Nat := 0
  success : Nat := 0
  failure : Nat := 0
  pending : Nat := 0
  skipped : Nat := 0
  deriving Repr, DecidableEq

/-- One counting step of `get_recent_commits_with_jobs`
(src/pytorch_hud/tools/hud_data.py lines 836-855): a falsy entry is
skipped; otherwise `total` is incremented and the job is tallied by
`classifyRecent`. -/
def jobCountsRecentStep (c : JobCounts) (oj : Option Job) : JobCounts :=
  match oj with
  | none => c
  | some job =>
    let c := { c with total := c.total + 1 }
    match classifyRecent job with
    | .success => { c with success := c.success + 1 }
    | .failure => { c with failure := c.failure + 1 }
    | .skipped => { c with skipped := c.skipped + 1 }
    | .pending => { c with pending := c.pending + 1 }
    | _ => c

/-- The `job_counts` computed for one commit by
`get_recent_commits_with_jobs` (src/pytorch_hud/tools/hud_data.py lines
836-855). -/
def jobCountsRecent (jobs : List (Option Job)) : JobCounts :=
  jobs.foldl jobCountsRecentStep {}

/-- One counting step of `get_recent_commit_status`
(src/pytorch_hud/server/mcp_server.py lines 1143-1159): identical
classification, but no running `total` (the function computes `total` as
the sum of the four buckets afterwards, line 1162). -/
def jobCountsStatusStep (c : JobCounts) (oj : Option Job) : JobCounts :=
  match oj with
  | none => c
  | some job =>
    match classifyRecent job with
    | .success => { c with success := c.success + 1 }
    | .failure => { c with failure := c.failure + 1 }
    | .skipped => { c with skipped := c.skipped + 1 }
    | .pending => { c with pending := c.pending + 1 }
    | _ => c

/-- The `job_counts` computed for one commit by `get_recent_commit_status`
(src/pytorch_hud/server/mcp_server.py lines 1133-1162); `total` is the
sum `success + failure + pending + skipped`. -/
def jobCountsStatus (jobs : List (Option Job)) : JobCounts :=
  let c := jobs.foldl jobCountsStatusStep {}
  { c with total := c.success + c.failure + c.pending + c.skipped }

/-- The `status_counts` tally of `get_job_summary`: keys
`success, failure, pending, skipped, queued, in_progress, total`. -/
structure StatusCounts where
  success : Nat := 0
  failure : Nat := 0
  pending : Nat := 0
  skipped : Nat := 0
  queued : Nat := 0
  inProgress : Nat := 0
  total : Nat := 0
  deriving Repr, DecidableEq

/-- One counting step of `get_job_summary`
(src/pytorch_hud/tools/hud_data.py lines 199-218).  This endpoint has no
falsy-entry skip: every element of the `jobs` array increments `total`
and is then tallied by `classifyJobSummary`. -/
def statusCountsStep (c : StatusCounts) (job : Job) : StatusCounts :=
  let c := { c with total := c.total + 1 }
  match classifyJobSummary job with
  | .success => { c with success := c.success + 1 }
  | .failure => { c with failure := c.failure + 1 }
  | .skipped => { c with skipped := c.skipped + 1 }
  | .queued => { c with queued := c.queued + 1 }
  | .inProgress => { c with inProgress := c.inProgress + 1 }
  | .pending => { c with pending := c.pending + 1 }
  | .other => c

/-- The `status_counts` computed by `get_job_summary`
(src/pytorch_hud/tools/hud_data.py lines 182-218). -/
def statusCountsOf (jobs : List Job) : StatusCounts :=
  jobs.foldl statusCountsStep {}

/-- Splitting a character list on a separator, keeping empty segments —
the semantics of Python `str.split(sep)`. -/
def splitOnChar (sep : Char) : List Char → List (List Char)
  | [] => [[]]
  | c :: rest =>
    match splitOnChar sep rest with
    | [] => [[]]
    | h :: t => if c == sep then [] :: h :: t else (c :: h) :: t

/-- Python `url.split("/")` (single-character separator). -/
def pySplit (s : String) (sep : Char) : List String :=
  (splitOnChar sep s.data).map String.mk

/-- Name enrichment fallback of `enrich_jobs_with_names`
(src/pytorch_hud/tools/hud_data.py lines 36-42): when the id-based lookup
does not apply, a job that has no `name` but has a non-empty `htmlUrl`
with more than 4 `/`-separated parts takes the last part as its name. -/
def enrichFallback (job : Job) : Job :=
  if job.name = none then
    match job.htmlUrl with
    | some url =>
      if url ≠ "" then
        let parts := pySplit url (Char.ofNat 0x2f)
        if parts.length > 4 then { job with name := some (parts.getLastD "") }
        else job
      else job
    | none => job
  else job

/-- Name enrichment of a single job, `enrich_jobs_with_names`
(src/pytorch_hud/tools/hud_data.py lines 27-44): an integer `id` that is a
valid index into `jobNames` sets the name from that array; otherwise the
URL fallback applies. -/
def enrichJob (jobNames : List String) (job : Job) : Job :=
  match job.id with
  | some i =>
    if 0 ≤ i ∧ i < (jobNames.length : Int) then
      { job with name := some (jobNames.getD i.toNat "") }
    else enrichFallback job
  | none => enrichFallback job

/-- Status-flag stage of the per-job filter of
`get_recent_commits_with_jobs` (src/pytorch_hud/tools/hud_data.py lines
872-882): a job is provisionally included when its class matches an
enabled include flag. -/
def statusFlagInclude (include_success include_pending include_failures : Bool)
    (job : Job) : Bool :=
  let status := job.status.getD "unknown"
  let conclusion := job.conclusion.getD "unknown"
  if conclusion == "success" && include_success then true
  else if conclusion == "failure" && include_failures then true
  else if (status == "queued" || status == "in_progress" || conclusion == "pending")
      && include_pending then true
  else false

/-- Job-name-filter stage (src/pytorch_hud/tools/hud_data.py lines
884-888): a provisionally included job is dropped when a name pattern is
set and does not match the enriched name. -/
def nameFilterInclude (jobNamePattern : Option (String → Bool)) (job : Job)
    (include_job : Bool) : Bool :=
  match jobNamePattern with
  | some p => if include_job && !(p (job.name.getD "")) then false else include_job
  | none => include_job

/-- Failure-line-filter stage (src/pytorch_hud/tools/hud_data.py lines
890-898): applied only when a pattern is set **and** the job has a
`failureLines` key at all (line 891: `"failureLines" in job`); it drops
the job when no failure line matches. -/
def failureLineFilterInclude (failureLinePattern : Option (String → Bool)) (job : Job)
    (include_job : Bool) : Bool :=
  match failureLinePattern with
  | some p =>
    match job.failureLines with
    | some lines => if include_job && !(lines.any p) then false else include_job
    | none => include_job
  | none => include_job

/-- Per-job filter of `get_recent_commits_with_jobs`
(src/pytorch_hud/tools/hud_data.py lines 871-898): the three stages in
source order.  `jobNamePattern` and `failureLinePattern` stand for the
compiled (case-insensitive) regexes as predicates on strings; `none`
means the corresponding filter argument was not supplied. -/
def includeJobRecent (include_success include_pending include_failures : Bool)
    (jobNamePattern failureLinePattern : Option (String → Bool)) (job : Job) : Bool :=
  failureLineFilterInclude failureLinePattern job
    (nameFilterInclude jobNamePattern job
      (statusFlagInclude include_success include_pending include_failures job))

/-- The jobs attached to one commit by `get_recent_commits_with_jobs`
(src/pytorch_hud/tools/hud_data.py lines 866-902): all jobs are enriched
with names, then filtered by `includeJobRecent`.  A falsy grid entry is
dropped here: in the source it survives enrichment unchanged and then
matches no status branch of the filter, so it is never attached. -/
def filteredJobsRecent (include_success include_pending include_failures : Bool)
    (jobNamePattern failureLinePattern : Option (String → Bool))
    (jobNames : List String) (jobs : List (Option Job)) : List Job :=
  ((jobs.filterMap id).map (enrichJob jobNames)).filter
    (includeJobRecent include_success include_pending include_failures
      jobNamePattern failureLinePattern)

/-- A `shaGrid` entry, reduced to the fields the embedded processing
reads. -/
structure Commit where
  sha : String := ""
  jobs : List (Option Job) := []

/-- The per-commit output of `get_recent_commits_with_jobs`, reduced to
the fields the claims are about: `job_counts`, derived `status`, and the
optional attached `jobs` list. -/
structure CommitInfo where
  sha : String
  job_counts : JobCounts
  status : String
  jobs : Option (List Job)

/-- Overall commit status derivation of `get_recent_commits_with_jobs`
(src/pytorch_hud/tools/hud_data.py lines 857-863). -/
def commitStatusOf (c : JobCounts) : String :=
  if c.failure > 0 then "red"
  else if c.pending > 0 then "pending"
  else if c.success > 0 then "green"
  else "unknown"

/-- Processing of one commit by `get_recent_commits_with_jobs`
(src/pytorch_hud/tools/hud_data.py lines 801-909): counts over all jobs,
status from the counts, and — only when at least one include flag is set —
the filtered job list, attached only when non-empty (line 905). -/
def processCommit (include_success include_pending include_failures : Bool)
    (jobNamePattern failureLinePattern : Option (String → Bool))
    (jobNames : List String) (commit : Commit) : CommitInfo :=
  let counts := jobCountsRecent commit.jobs
  let jobsField : Option (List Job) :=
    if include_success || include_pending || include_failures then
      let fj := filteredJobsRecent include_success include_pending include_failures
        jobNamePattern failureLinePattern jobNames commit.jobs
      if fj.isEmpty then none else some fj
    else none
  { sha := commit.sha
    job_counts := counts
    status := commitStatusOf counts
    jobs := jobsField }

/-- The commits list built by `get_recent_commits_with_jobs`
(src/pytorch_hud/tools/hud_data.py lines 796-909): the loop appends one
`commit_info` per grid entry and stops once `per_page` entries have been
produced, i.e. it maps `processCommit` over the first `per_page` grid
entries. -/
def resultCommits (include_success include_pending include_failures : Bool)
    (jobNamePattern failureLinePattern : Option (String → Bool))
    (jobNames : List String) (shaGrid : List Commit) (per_page : Nat) : List CommitInfo :=
  (shaGrid.take per_page).map
    (processCommit include_success include_pending include_failures
      jobNamePattern failureLinePattern jobNames)

/-- Retry loop of `PyTorchHudAPI._make_request`
(src/pytorch_hud/api/client.py lines 39-72).  `transport k` is the outcome
of the k-th underlying `requests.get` call (0-based); `Except.error`
models a `RequestException` (connection error or non-2xx status).  The
first component of the result models the returned JSON or the raised
`PyTorchHudAPIError`; the second counts transport invocations made.  The
backoff sleep has no observable effect on the result and is not
modelled. -/
def makeRequestAux (transport : Nat → Except String String) (url : String) :
    Nat → Nat → Except String String × Nat
  | 0, k =>
    (match transport k with
     | .ok v => (.ok v, k + 1)
     | .error e => (.error ("Failed to make request to " ++ url ++ ": " ++ e), k + 1))
  | rr + 1, k =>
    (match transport k with
     | .ok v => (.ok v, k + 1)
     | .error _ => makeRequestAux transport url rr (k + 1))

/-- Entry point of the retry loop: `_make_request` called with
`retry_remaining = None` starts from `self.retry_attempts`
(src/pytorch_hud/api/client.py lines 54-55). -/
def make_request (transport : Nat → Except String String) (url : String)
    (retry_attempts : Nat) : Except String String × Nat :=
  makeRequestAux transport url retry_attempts 0

/-- Response size cap `MAX_RESPONSE_SIZE`
(src/pytorch_hud/server/mcp_server.py line 36). -/
def MAX_RESPONSE_SIZE : Nat := 10 * 1024

/-- The truncation warning block appended by `safe_json_dumps`
(src/pytorch_hud/server/mcp_server.py lines 57-64). -/
def warning_msg : String :=
  "\n\n<ERROR: RESPONSE TRUNCATED>\n" ++
  "The response exceeds the maximum size limit. Please use more specific parameters:\n" ++
  "- Reduce \x27per_page\x27 value (try 3-5 instead)\n" ++
  "- Use the \x27fields\x27 parameter to request only needed data\n" ++
  "- For failure details, use \x27include_lines=summary\x27 or \x27include_lines=none\x27\n" ++
  "- Consider using specialized endpoints like get_commit_summary or get_job_summary"

/-- Embedding of `safe_json_dumps` (src/pytorch_hud/server/mcp_server.py
lines 38-72) applied to the already-serialized JSON text `json_str`
(`json.dumps(data, indent=indent)`); Python strings are sequences of
characters, so slicing is `List.take` on `String.data`. -/
def safe_json_dumps (json_str : String) (max_size : Nat := MAX_RESPONSE_SIZE) : String :=
  if json_str.length ≤ max_size then json_str
  else
    let trunc_size : Int := (max_size : Int) - (warning_msg.length : Int)
    let trunc_size := if trunc_size < 200 then 200 else trunc_size
    String.mk (json_str.data.take trunc_size.toNat) ++ warning_msg

/-- Regular expressions over characters, with character classes given as
Boolean predicates.  This is the sub-language needed for the regexes the
repository compiles with Python `re`: literals, the dot, digit classes,
`+`/`*` repetition and alternation. -/
inductive RE where
  | emp
  | eps
  | cls (p : Char → Bool)
  | cat (a b : RE)
  | alt (a b : RE)
  | star (a : RE)

/-- Nullability: whether the regex accepts the empty string. -/
def RE.nullable : RE → Bool
  | .emp => false
  | .eps => true
  | .cls _ => false
  | .cat a b => a.nullable && b.nullable
  | .alt a b => a.nullable || b.nullable
  | .star _ => true

/-- Concatenation smart constructor (keeps derivatives small). -/
def RE.catS : RE → RE → RE
  | .emp, _ => .emp
  | _, .emp => .emp
  | .eps, b => b
  | a, .eps => a
  | a, b => .cat a b

/-- Alternation smart constructor (keeps derivatives small). -/
def RE.altS : RE → RE → RE
  | .emp, b => b
  | a, .emp => a
  | a, b => .alt a b

/-- Brzozowski derivative with respect to one character. -/
def RE.deriv : RE → Char → RE
  | .emp, _ => .emp
  | .eps, _ => .emp
  | .cls p, c => if p c then .eps else .emp
  | .cat a b, c =>
    if a.nullable then RE.altS (RE.catS (a.deriv c) b) (b.deriv c)
    else RE.catS (a.deriv c) b
  | .alt a b, c => RE.altS (a.deriv c) (b.deriv c)
  | .star a, c => RE.catS (a.deriv c) (.star a)

/-- Whole-string match via iterated derivatives. -/
def RE.matchList (r : RE) (s : List Char) : Bool :=
  (s.foldl RE.deriv r).nullable

/-- The Python dot: any character except a newline (`re.DOTALL` is not
set anywhere in the repository). -/
def RE.dot : RE := .cls fun c => c != '\n'

/-- A class matching every character (used to pad a regex for `search`
semantics). -/
def RE.allChar : RE := .cls fun _ => true

/-- Python `pattern.search(s)`: the pattern matches some substring of
`s`. -/
def RE.search (r : RE) (s : String) : Bool :=
  RE.matchList (.cat (.star RE.allChar) (.cat r (.star RE.allChar))) s.data

/-- Case-sensitive literal, as a list of characters. -/
def RE.litL : List Char → RE
  | [] => .eps
  | c :: rest => .cat (.cls fun d => d == c) (RE.litL rest)

/-- Case-sensitive literal (a regex with no metacharacters, compiled
without flags). -/
def RE.lit (w : String) : RE := RE.litL w.data

/-- Case-insensitive literal, as a list of characters. -/
def RE.ciLitL : List Char → RE
  | [] => .eps
  | c :: rest => .cat (.cls fun d => d.toLower == c.toLower) (RE.ciLitL rest)

/-- Case-insensitive literal: a literal pattern under the inline `(?i)`
flag, each character matching both its cases. -/
def RE.ciLit (w : String) : RE := RE.ciLitL w.data

/-- The `\d` class. -/
def RE.digit : RE := .cls fun c => c.isDigit

/-- `r+` repetition. -/
def RE.plus (r : RE) : RE := .cat r (.star r)

/-- Default pattern `error` of `extract_log_patterns`:
`(?i)error:` (src/pytorch_hud/log_analysis/tools.py line 130). -/
def pattern_error : RE := RE.ciLit "error:"

/-- Default pattern `exception`: `(?i)exception:`
(src/pytorch_hud/log_analysis/tools.py line 131). -/
def pattern_exception : RE := RE.ciLit "exception:"

/-- Default pattern `warning`: `(?i)warning:`
(src/pytorch_hud/log_analysis/tools.py line 132). -/
def pattern_warning : RE := RE.ciLit "warning:"

/-- Default pattern `test_failed`: `FAILED.*test_`
(src/pytorch_hud/log_analysis/tools.py line 133); no `(?i)` flag. -/
def pattern_test_failed : RE :=
  .cat (RE.lit "FAILED") (.cat (.star RE.dot) (RE.lit "test_"))

/-- Default pattern `test_results`: `Ran (\d+) tests.*?(\d+) failures`
(src/pytorch_hud/log_analysis/tools.py line 134); laziness of `.*?` does
not affect whether a match exists. -/
def pattern_test_results : RE :=
  .cat (RE.lit "Ran ") (.cat (RE.plus RE.digit) (.cat (RE.lit " tests")
    (.cat (.star RE.dot) (.cat (RE.plus RE.digit) (RE.lit " failures")))))

/-- Default pattern `cuda_error`: `CUDA error|CUDA exception|cudaError`
(src/pytorch_hud/log_analysis/tools.py line 135). -/
def pattern_cuda_error : RE :=
  .alt (RE.lit "CUDA error") (.alt (RE.lit "CUDA exception") (RE.lit "cudaError"))

/-- Default pattern `out_of_memory`: `OutOfMemoryError|OOM|out of memory`
(src/pytorch_hud/log_analysis/tools.py line 136). -/
def pattern_out_of_memory : RE :=
  .alt (RE.lit "OutOfMemoryError") (.alt (RE.lit "OOM") (RE.lit "out of memory"))

/-- Default pattern `build_failed`:
`Build failed|compilation failed|error: command .* failed`
(src/pytorch_hud/log_analysis/tools.py line 137). -/
def pattern_build_failed : RE :=
  .alt (RE.lit "Build failed") (.alt (RE.lit "compilation failed")
    (.cat (RE.lit "error: command ") (.cat (.star RE.dot) (RE.lit " failed"))))

/-- The default pattern dictionary of `extract_log_patterns`
(src/pytorch_hud/log_analysis/tools.py lines 129-138), in source
order. -/
def default_patterns : List (String × RE) :=
  [("error", pattern_error),
   ("exception", pattern_exception),
   ("warning", pattern_warning),
   ("test_failed", pattern_test_failed),
   ("test_results", pattern_test_results),
   ("cuda_error", pattern_cuda_error),
   ("out_of_memory", pattern_out_of_memory),
   ("build_failed", pattern_build_failed)]

/-- Two strings differ only in letter case. -/
def sameLetters (s t : String) : Prop :=
  s.data.map Char.toLower = t.data.map Char.toLower

instance (s t : String) : Decidable (sameLetters s t) := by
  unfold sameLetters; infer_instance

/-- A regex is case-blind when every character class in it is insensitive
to letter case. -/
def RE.CaseBlind : RE → Prop
  | .emp => True
  | .eps => True
  | .cls p => ∀ c d : Char, c.toLower = d.toLower → p c = p d
  | .cat a b => a.CaseBlind ∧ b.CaseBlind
  | .alt a b => a.CaseBlind ∧ b.CaseBlind
  | .star a => a.CaseBlind


/-- Python `str.strip()`: leading and trailing whitespace removed. -/
def pyStrip (s : String) : String :=
  String.mk (((s.data.dropWhile Char.isWhitespace).reverse.dropWhile Char.isWhitespace).reverse)

/-- Python `str.rstrip()`: trailing whitespace removed. -/
def pyRstrip (s : String) : String :=
  String.mk ((s.data.reverse.dropWhile Char.isWhitespace).reverse)

/-- One retained sample of `extract_log_patterns`: 1-based line number and
the stripped line truncated to 150 characters (the regex `groups` entry is
not modelled). -/
structure PatternSample where
  line_num : Nat
  text : String
  deriving Repr, DecidableEq

/-- Result of `extract_log_patterns`: either the structured failure dict
(`success: false` with an `error` message) or the analysis payload.  The
source keys `matches`/`counts`/`samples` by pattern name in order of first
match; here the per-pattern entries are listed in pattern order, which
holds the same association. -/
inductive ExtractPatternsResult where
  | failure (error : String)
  | ok (file_path : String) (counts : List (String × Nat))
      (samples : List (String × List PatternSample))

/-- Embedding of `extract_log_patterns`
(src/pytorch_hud/log_analysis/tools.py lines 102-196).  The filesystem is
`fs : path → Option lines` (`none` = `os.path.exists` false); `patterns`
is the optional user dictionary (a falsy — empty — dictionary also falls
back to the defaults, line 140: `patterns or default_patterns`).  A
pattern's count is the number of lines on which `pattern.search` finds a
match; its samples are the first 5 such lines. -/
def extract_log_patterns (fs : String → Option (List String)) (file_path : String)
    (patterns : Option (List (String × RE)) := none) : ExtractPatternsResult :=
  match fs file_path with
  | none => .failure ("File not found: " ++ file_path)
  | some lines =>
    let use_patterns := match patterns with
      | some ps => if ps.isEmpty then default_patterns else ps
      | none => default_patterns
    .ok file_path
      (use_patterns.filterMap (fun np =>
        let cnt := lines.countP (fun l => RE.search np.2 l)
        if cnt > 0 then some (np.1, cnt) else none))
      (use_patterns.filterMap (fun np =>
        let ms := ((lines.enumFrom 1).filter (fun il => RE.search np.2 il.2)).take 5
        if ms.isEmpty then none
        else some (np.1, ms.map (fun il => ⟨il.1, (pyStrip il.2).take 150⟩))))

/-- Literal-prefix consumption used by the capture parsers below. -/
def expectL : List Char → List Char → Option (List Char)
  | [], l => some l
  | _, [] => none
  | w :: ws, c :: cs => if c == w then expectL ws cs else none

/-- A maximal digit run and the rest. -/
def takeDigits (l : List Char) : List Char × List Char :=
  (l.takeWhile Char.isDigit, l.dropWhile Char.isDigit)

/-- Numeric value of a digit run. -/
def digitsVal (l : List Char) : Nat :=
  l.foldl (fun acc c => 10 * acc + (c.toNat - 48)) 0

/-- Leftmost-match search: try the matcher at every position. -/
def scanFirst {α : Type} (f : List Char → Option α) : List Char → Option α
  | [] => f []
  | c :: rest =>
    match f (c :: rest) with
    | some x => some x
    | none => scanFirst f rest

/-- Matcher, at one position, for the `pytest_summary` regex
`=+ ([\d]+) failed, ([\d]+) passed, ([\d]+) skipped`
(src/pytorch_hud/log_analysis/tools.py line 237), returning the three
captured counts. -/
def pytestSummaryAt (l : List Char) : Option (Nat × Nat × Nat) :=
  let eqs := l.takeWhile (· == '=')
  if eqs.isEmpty then none else
  match expectL " ".data (l.dropWhile (· == '=')) with
  | none => none
  | some l =>
    let (d1, l) := takeDigits l
    if d1.isEmpty then none else
    match expectL " failed, ".data l with
    | none => none
    | some l =>
      let (d2, l) := takeDigits l
      if d2.isEmpty then none else
      match expectL " passed, ".data l with
      | none => none
      | some l =>
        let (d3, l) := takeDigits l
        if d3.isEmpty then none else
        match expectL " skipped".data l with
        | none => none
        | some _ => some (digitsVal d1, digitsVal d2, digitsVal d3)

/-- `pattern.search` with captures for `pytest_summary`. -/
def findPytestSummary (s : String) : Option (Nat × Nat × Nat) :=
  scanFirst pytestSummaryAt s.data

/-- Matcher, at one position, for the `unittest_summary` regex
`Ran ([\d]+) tests in ([\d\.]+)s`
(src/pytorch_hud/log_analysis/tools.py line 238), returning the test
count and the duration capture (kept as text, as the source does). -/
def unittestSummaryAt (l : List Char) : Option (Nat × String) :=
  match expectL "Ran ".data l with
  | none => none
  | some l =>
    let (d1, l) := takeDigits l
    if d1.isEmpty then none else
    match expectL " tests in ".data l with
    | none => none
    | some l =>
      let d2 := l.takeWhile (fun c => c.isDigit || c == '.')
      let l := l.dropWhile (fun c => c.isDigit || c == '.')
      if d2.isEmpty then none else
      match expectL "s".data l with
      | none => none
      | some _ => some (digitsVal d1, String.mk d2)

/-- `pattern.search` with captures for `unittest_summary`. -/
def findUnittestSummary (s : String) : Option (Nat × String) :=
  scanFirst unittestSummaryAt s.data

/-- Python `\w` (ASCII). -/
def isWordChar (c : Char) : Bool := c.isAlphanum || c == '_'

/-- Matcher, at one position, for `FAIL: (test\w+)` / `ERROR: (test\w+)`
(src/pytorch_hud/log_analysis/tools.py lines 240-241), parameterised by
the leading tag, returning the captured test name. -/
def failCaptureAt (tag : List Char) (l : List Char) : Option String :=
  match expectL tag l with
  | none => none
  | some l =>
    match expectL "test".data l with
    | none => none
    | some l =>
      let w := l.takeWhile isWordChar
      if w.isEmpty then none else some ("test" ++ String.mk w)

/-- `pattern.search` with capture for the `test_failure` regex. -/
def findTestFailure (s : String) : Option String :=
  scanFirst (failCaptureAt "FAIL: ".data) s.data

/-- `pattern.search` with capture for the `error_failure` regex. -/
def findErrorFailure (s : String) : Option String :=
  scanFirst (failCaptureAt "ERROR: ".data) s.data

/-- The `test_counts` dictionary of `extract_test_results`. -/
structure TestCounts where
  total : Nat := 0
  passed : Nat := 0
  failed : Nat := 0
  skipped : Nat := 0
  deriving Repr, DecidableEq

/-- One recorded test failure of `extract_test_results`: name, 1-based
line number, and up to 5 stripped context lines starting at the matching
line. -/
structure FailedTest where
  test_name : String
  line_num : Nat
  context : List String
  deriving Repr, DecidableEq

/-- Result of `extract_test_results`: the structured failure dict or the
payload `{file_path, test_counts, failed_tests, duration}`. -/
inductive TestResultsOut where
  | failure (error : String)
  | ok (file_path : String) (test_counts : TestCounts)
      (failed_tests : List FailedTest) (duration : Option String)

/-- One line of the `extract_test_results` scanning loop
(src/pytorch_hud/log_analysis/tools.py lines 248-287): the stripped line
is checked against the pytest summary (overwriting all four counts), the
unittest summary (overwriting `total` and `duration`), then `test_failure`
and `error_failure`, each appending a failure record (with context) while
fewer than 20 are recorded. -/
def testResultsStep (lines : List String) (st : TestCounts × Option String × List FailedTest)
    (il : Nat × String) : TestCounts × Option String × List FailedTest :=
  let line := pyStrip il.2
  let line_num := il.1
  let (counts, duration, failed) := st
  let counts := match findPytestSummary line with
    | some (f, p, s) =>
      { counts with failed := f, passed := p, skipped := s, total := f + p + s }
    | none => counts
  let (counts, duration) := match findUnittestSummary line with
    | some (t, d) => ({ counts with total := t }, some d)
    | none => (counts, duration)
  let context := ((lines.drop (line_num - 1)).take 5).map pyStrip
  let failed := match findTestFailure line with
    | some nm => if failed.length < 20 then failed ++ [⟨nm, line_num, context⟩] else failed
    | none => failed
  let failed := match findErrorFailure line with
    | some nm => if failed.length < 20 then failed ++ [⟨nm, line_num, context⟩] else failed
    | none => failed
  (counts, duration, failed)

/-- Embedding of `extract_test_results`
(src/pytorch_hud/log_analysis/tools.py lines 198-310). -/
def extract_test_results (fs : String → Option (List String)) (file_path : String) :
    TestResultsOut :=
  match fs file_path with
  | none => .failure ("File not found: " ++ file_path)
  | some lines =>
    let st := (lines.enumFrom 1).foldl (testResultsStep lines) ({}, none, [])
    .ok file_path st.1 st.2.2 st.2.1

/-- One extracted log section of `filter_log_sections`. -/
structure LogSection where
  start_line : Nat
  content : String
  truncated : Bool
  deriving Repr, DecidableEq

/-- Result of `filter_log_sections`: the structured failure dict or the
payload `{file_path, sections, section_count}`. -/
inductive FilterSectionsOut where
  | failure (error : String)
  | ok (file_path : String) (sections : List LogSection) (section_count : Nat)

/-- Scanner state of the `filter_log_sections` loop. -/
structure SectionScanState where
  in_section : Bool := false
  current : List String := []
  current_start : Nat := 0
  sections : List LogSection := []

/-- One line of the `filter_log_sections` loop
(src/pytorch_hud/log_analysis/tools.py lines 364-402): outside a section,
a start match opens one with the rstripped line; inside a section, the
`max_lines` cap closes it with a truncation marker (dropping the current
line), an end match closes it including the line, and otherwise the line
is appended. -/
def sectionScanStep (startP : String → Bool) (endP : Option (String → Bool)) (max_lines : Nat)
    (st : SectionScanState) (il : Nat × String) : SectionScanState :=
  let (line_num, line) := il
  if !st.in_section && startP line then
    { st with in_section := true, current := [pyRstrip line], current_start := line_num }
  else if st.in_section then
    if st.current.length ≥ max_lines then
      let marker := "... [truncated after " ++ toString max_lines ++ " lines] ..."
      let sec : LogSection :=
        ⟨st.current_start, String.intercalate "\n" (st.current ++ [marker]), true⟩
      { st with in_section := false, current := [], sections := st.sections ++ [sec] }
    else
      match endP with
      | some ep =>
        if ep line then
          let sec : LogSection :=
            ⟨st.current_start, String.intercalate "\n" (st.current ++ [pyRstrip line]), false⟩
          { st with in_section := false, current := [], sections := st.sections ++ [sec] }
        else { st with current := st.current ++ [pyRstrip line] }
      | none => { st with current := st.current ++ [pyRstrip line] }
  else st

/-- Embedding of `filter_log_sections`
(src/pytorch_hud/log_analysis/tools.py lines 312-424).  `start_pattern`
and `end_pattern` stand for the compiled regexes as predicates; `none`
models an absent (or falsy empty-string) pattern argument. -/
def filter_log_sections (fs : String → Option (List String)) (file_path : String)
    (start_pattern : Option (String → Bool)) (end_pattern : Option (String → Bool))
    (max_lines : Nat := 100) : FilterSectionsOut :=
  match fs file_path with
  | none => .failure ("File not found: " ++ file_path)
  | some lines =>
    match start_pattern with
    | none => .failure "Start pattern is required"
    | some startP =>
      let st := (lines.enumFrom 1).foldl (sectionScanStep startP end_pattern max_lines) {}
      let final :=
        if st.in_section && !st.current.isEmpty then
          st.sections ++ [⟨st.current_start, String.intercalate "\n" st.current, false⟩]
        else st.sections
      .ok file_path final final.length

/-- The S3 log URL builder `get_s3_log_url`
(src/pytorch_hud/api/client.py lines 269-278). -/
def get_s3_log_url (job_id : String) : String :=
  "https://ossci-raw-job-status.s3.amazonaws.com/log/" ++ job_id

/-- The effectful environment `download_log_to_file` runs in: outcome of
`os.makedirs` (line 61, before the `try` block), of the wrapped
`api.download_log` call, of the file write, and of `os.path.getsize`
(all inside the `try` block); `now` is the timestamp used in the file
name. -/
structure DownloadEnv where
  makedirs : Except String Unit
  download_log : Except String String
  write_file : Except String Unit
  getsize : Except String Nat
  now : String

/-- Result of `download_log_to_file`: `raised` models an exception
propagating out of the function, `failure` the structured
`{success: false, error, job_id}` dict, `ok` the success dict. -/
inductive DownloadLogResult where
  | raised (error : String)
  | failure (error : String) (job_id : Int)
  | ok (file_path : String) (job_id : Int) (size_bytes : Nat) (line_count : Nat) (url : String)
  deriving Repr, DecidableEq

/-- Embedding of `download_log_to_file`
(src/pytorch_hud/log_analysis/tools.py lines 42-100), with `ctx = None`.
`os.makedirs` runs before the `try` block, so its failure propagates;
every failure inside the `try` block (download, write, stat) is caught
and returned as the structured failure dict. -/
def download_log_to_file (env : DownloadEnv) (job_id : Int) : DownloadLogResult :=
  match env.makedirs with
  | .error e => .raised e
  | .ok _ =>
    let filepath := "temp_logs/job_" ++ toString job_id ++ "_" ++ env.now ++ ".log"
    match env.download_log with
    | .error e => .failure e job_id
    | .ok log_content =>
      match env.write_file with
      | .error e => .failure e job_id
      | .ok _ =>
        match env.getsize with
        | .error e => .failure e job_id
        | .ok file_size =>
          .ok filepath job_id file_size (log_content.data.count '\n' + 1)
            (get_s3_log_url (toString job_id))

/-- Compact per-job summary appended to a workflow aggregate
(src/pytorch_hud/tools/hud_data.py lines 616-622). -/
structure WfJobSummary where
  id : Option Int
  name : String
  conclusion : String
  status : String
  duration : ℚ
  deriving Repr, DecidableEq

/-- One workflow aggregate of `get_workflow_summary`
(src/pytorch_hud/tools/hud_data.py lines 579-589). -/
structure WorkflowStats where
  name : String
  total_jobs : Nat := 0
  success : Nat := 0
  failure : Nat := 0
  skipped : Nat := 0
  pending : Nat := 0
  in_progress : Nat := 0
  total_duration : ℚ := 0
  jobs : List WfJobSummary := []
  deriving Repr, DecidableEq

/-- Workflow identifier of a job
(src/pytorch_hud/tools/hud_data.py lines 570-575): the third-from-last
`/`-separated part of a non-empty `htmlUrl` with more than 4 parts;
`none` when the job has no such URL (the job then joins no workflow
aggregate). -/
def workflowKeyOf (job : Job) : Option String :=
  match job.htmlUrl with
  | none => none
  | some url =>
    if url ≠ "" then
      let parts := pySplit url (Char.ofNat 0x2f)
      if parts.length > 4 then some (parts.getD (parts.length - 3) "") else none
    else none

/-- One update of a workflow aggregate by a job
(src/pytorch_hud/tools/hud_data.py lines 591-622): `total_jobs` always
increments; the status buckets follow `classifyWorkflow`; `durationS` is
added to `total_duration` whenever it is truthy and positive — for
**every** job, completed or not; the compact summary is appended. -/
def wfStep (w : WorkflowStats) (job : Job) : WorkflowStats :=
  let w := { w with total_jobs := w.total_jobs + 1 }
  let status := job.status.getD "unknown"
  let conclusion := job.conclusion.getD "unknown"
  let w := match classifyWorkflow job with
    | .success => { w with success := w.success + 1 }
    | .failure => { w with failure := w.failure + 1 }
    | .skipped => { w with skipped := w.skipped + 1 }
    | .inProgress => { w with in_progress := w.in_progress + 1 }
    | .pending => { w with pending := w.pending + 1 }
    | _ => w
  let duration := job.durationS.getD 0
  let w := if duration ≠ 0 ∧ duration > 0 then
      { w with total_duration := w.total_duration + duration }
    else w
  { w with jobs := w.jobs ++ [⟨job.id, job.name.getD "", conclusion, status, duration⟩] }

/-- The aggregate `get_workflow_summary` builds for workflow `key`: the
fold of `wfStep` over the jobs whose workflow identifier is `key`, in
order (the source accumulates them into `workflows[key]` as it walks the
job list). -/
def workflowStats (key : String) (jobs : List Job) : WorkflowStats :=
  (jobs.filter (fun j => workflowKeyOf j == some key)).foldl wfStep { name := key }

/-- Derived fields of a workflow aggregate
(src/pytorch_hud/tools/hud_data.py lines 624-632):
`(avg_duration, success_rate)`, both `0` when there are no completed
jobs. -/
def wfDerived (w : WorkflowStats) : ℚ × ℚ :=
  let completed_jobs := w.success + w.failure
  if completed_jobs > 0 then
    (w.total_duration / (completed_jobs : ℚ), (w.success : ℚ) / (completed_jobs : ℚ) * 100)
  else (0, 0)

/-- Sum of `durationS` over the *completed* (success or failure) jobs of
workflow `key` — the quantity the specification says `total_duration`
holds. -/
def completedDurationSum (key : String) (jobs : List Job) : ℚ :=
  ((jobs.filter (fun j => workflowKeyOf j == some key ∧
      (classifyWorkflow j = .success ∨ classifyWorkflow j = .failure))).map
    (fun j => j.durationS.getD 0)).sum

/-- Sum of the positive `durationS` values over *all* jobs of workflow
`key` — the quantity `total_duration` actually holds in the source. -/
def positiveDurationSum (key : String) (jobs : List Job) : ℚ :=
  ((jobs.filter (fun j => workflowKeyOf j == some key)).map
    (fun j => if j.durationS.getD 0 > 0 then j.durationS.getD 0 else 0)).sum

/-- Concrete job: `conclusion = "success"` with non-empty `failureLines`
(a "hidden failure" in the repository's historical terminology). -/
def jobSuccessHidden : Job :=
  { conclusion := some "success", status := some "completed", failureLines := some ["FAIL: test_x"] }

/-- Concrete job: `conclusion = "success"`, no `failureLines` key. -/
def jobSuccessPlain : Job :=
  { conclusion := some "success", status := some "completed" }

/-- Concrete job: `conclusion = "success"`, `failureLines` present but
empty. -/
def jobSuccessEmptyLines : Job :=
  { conclusion := some "success", status := some "completed", failureLines := some [] }

/-- Concrete job: a completed job with a conclusion (`"cancelled"`) that
matches no branch of any classification chain. -/
def jobCancelled : Job :=
  { conclusion := some "cancelled", status := some "completed" }

/-- Concrete job: an in-progress job with a positive `durationS`,
belonging to workflow run `123` of a GitHub Actions URL. -/
def jobInProgressTimed : Job :=
  { status := some "in_progress", durationS := some 100,
    htmlUrl := some "https://github.com/pytorch/pytorch/actions/runs/123/job/456" }

/-- Concrete environment for `download_log_to_file` in which creating the
`temp_logs` directory fails (for example because a regular file of that
name exists); everything after it would succeed. -/
def envMakedirsFails : DownloadEnv :=
  { makedirs := .error "Permission denied", download_log := .ok "line1",
    write_file := .ok (), getsize := .ok 5, now := "20251012_000000" }

/-- Concrete environment for `download_log_to_file` in which the wrapped
`api.download_log` call raises. -/
def envDownloadFails : DownloadEnv :=
  { makedirs := .ok (), download_log := .error "Failed to download log for job 7: 404",
    write_file := .ok (), getsize := .ok 5, now := "20251012_000000" }

/-- Concrete transport that fails on the first two invocations and
succeeds on the third. -/
def transportFailTwice : Nat → Except String String :=
  fun k => if k < 2 then .error "connection reset" else .ok "json"

/-- Concrete transport that fails on every invocation. -/
def transportAlwaysFails : Nat → Except String String :=
  fun _ => .error "connection reset"
theorem RE.catS_caseBlind : ∀ {a b : RE}, a.CaseBlind → b.CaseBlind → (RE.catS a b).CaseBlind := by
  intro a b ha hb
  cases a <;> cases b <;> simp_all [RE.catS, RE.CaseBlind] <;>
    first | assumption | exact fun c d h => ⟨ha c d h, hb c d h⟩ | exact ⟨ha, hb⟩

theorem RE.altS_caseBlind : ∀ {a b : RE}, a.CaseBlind → b.CaseBlind → (RE.altS a b).CaseBlind := by
  intro a b ha hb
  cases a <;> cases b <;> simp_all [RE.altS, RE.CaseBlind] <;>
    first | assumption | exact fun c d h => ⟨ha c d h, hb c d h⟩ | exact ⟨ha, hb⟩

theorem RE.deriv_caseBlind : ∀ {r : RE}, r.CaseBlind → ∀ c : Char, (r.deriv c).CaseBlind := by
  intro r h c
  induction r with
  | emp => trivial
  | eps => trivial
  | cls p =>
    simp only [RE.deriv]
    split <;> trivial
  | cat a b iha ihb =>
    obtain ⟨ha, hb⟩ := h
    simp only [RE.deriv]
    split
    · exact RE.altS_caseBlind (RE.catS_caseBlind (iha ha) hb) (ihb hb)
    · exact RE.catS_caseBlind (iha ha) hb
  | alt a b iha ihb =>
    obtain ⟨ha, hb⟩ := h
    exact RE.altS_caseBlind (iha ha) (ihb hb)
  | star a iha =>
    exact RE.catS_caseBlind (iha h) h

theorem RE.deriv_congr : ∀ {r : RE}, r.CaseBlind → ∀ {c d : Char},
    c.toLower = d.toLower → r.deriv c = r.deriv d := by
  intro r h c d hcd
  induction r with
  | emp => rfl
  | eps => rfl
  | cls p =>
    simp only [RE.deriv]
    rw [h c d hcd]
  | cat a b iha ihb =>
    obtain ⟨ha, hb⟩ := h
    simp only [RE.deriv]
    rw [iha ha, ihb hb]
  | alt a b iha ihb =>
    obtain ⟨ha, hb⟩ := h
    simp only [RE.deriv]
    rw [iha ha, ihb hb]
  | star a iha =>
    simp only [RE.deriv]
    rw [iha h]

theorem RE.matchList_congr : ∀ (l₁ l₂ : List Char) (r : RE), r.CaseBlind →
    l₁.map Char.toLower = l₂.map Char.toLower → r.matchList l₁ = r.matchList l₂ := by
  intro l₁
  induction l₁ with
  | nil =>
    intro l₂ r _ hm
    cases l₂ with
    | nil => rfl
    | cons c t => simp at hm
  | cons c t ih =>
    intro l₂ r h hm
    cases l₂ with
    | nil => simp at hm
    | cons c' t' =>
      simp only [List.map_cons, List.cons.injEq] at hm
      obtain ⟨hc, ht⟩ := hm
      show (r.deriv c).matchList t = (r.deriv c').matchList t'
      rw [RE.deriv_congr h hc]
      exact ih t' (r.deriv c') (RE.deriv_caseBlind h c') ht

theorem RE.search_congr {r : RE} (h : r.CaseBlind) {s t : String}
    (hst : sameLetters s t) : r.search s = r.search t := by
  exact RE.matchList_congr s.data t.data _
    ⟨fun _ _ _ => rfl, h, fun _ _ _ => rfl⟩ hst

theorem RE.ciLitL_caseBlind : ∀ l : List Char, (RE.ciLitL l).CaseBlind := by
  intro l
  induction l with
  | nil => trivial
  | cons c rest ih =>
    refine ⟨fun a b hab => ?_, ih⟩
    simp only [hab]

theorem RE.ciLit_caseBlind (w : String) : (RE.ciLit w).CaseBlind :=
  RE.ciLitL_caseBlind w.data

/-- Claim C1: in every classification the system performs
(`get_job_summary`, `get_failure_details`, `get_workflow_summary`,
`get_recent_commits_with_jobs`), a job whose `conclusion` is `"success"`
is classified as success and never as failure — whatever its
`failureLines` — and classification depends only on the `conclusion` and
`status` fields, never on `failureLines`. -/
theorem success_conclusion_always_classified_success :
    (∀ job : Job, job.conclusion.getD "unknown" = "success" →
      (classifyJobSummary job = .success ∧ classifyJobSummary job ≠ .failure) ∧
      (classifyFailureDetails job = .success ∧ classifyFailureDetails job ≠ .failure) ∧
      (classifyWorkflow job = .success ∧ classifyWorkflow job ≠ .failure) ∧
      (classifyRecent job = .success ∧ classifyRecent job ≠ .failure)) ∧
    (∀ j₁ j₂ : Job, j₁.conclusion = j₂.conclusion → j₁.status = j₂.status →
      classifyJobSummary j₁ = classifyJobSummary j₂ ∧
      classifyFailureDetails j₁ = classifyFailureDetails j₂ ∧
      classifyWorkflow j₁ = classifyWorkflow j₂ ∧
      classifyRecent j₁ = classifyRecent j₂) := by
  constructor
  · intro job h
    simp [classifyJobSummary, classifyFailureDetails, classifyWorkflow, classifyRecent, h]
  · intro j₁ j₂ hc hs
    simp [classifyJobSummary, classifyFailureDetails, classifyWorkflow, classifyRecent, hc, hs]

/-- Witness for C1: the concrete job `jobSuccessHidden` (success
conclusion, non-empty failure lines) is classified as success by the
`get_job_summary` and `get_recent_commits_with_jobs` chains, and
classifies identically to the job differing from it only in
`failureLines`. -/
theorem success_conclusion_always_classified_success_witness :
    (classifyJobSummary jobSuccessHidden = .success ∧
      classifyRecent jobSuccessHidden = .success) ∧
    classifyJobSummary jobSuccessHidden = classifyJobSummary jobSuccessPlain := by
  constructor
  · exact ⟨((success_conclusion_always_classified_success.1 jobSuccessHidden rfl).1).1,
      ((success_conclusion_always_classified_success.1 jobSuccessHidden rfl).2.2.2).1⟩
  · exact (success_conclusion_always_classified_success.2 jobSuccessHidden jobSuccessPlain
      rfl rfl).1

theorem jobCountsRecent_fold_total : ∀ (l : List (Option Job)) (c : JobCounts),
    (l.foldl jobCountsRecentStep c).total = c.total + (l.filterMap id).length := by
  intro l
  induction l with
  | nil => intro c; simp
  | cons oj t ih =>
    intro c
    cases oj with
    | none => simp [List.foldl_cons, jobCountsRecentStep, ih]
    | some j =>
      have hstep : (jobCountsRecentStep c (some j)).total = c.total + 1 := by
        cases hc : classifyRecent j <;> simp [jobCountsRecentStep, hc]
      simp only [List.foldl_cons, List.filterMap_cons, id]
      rw [ih, hstep]
      simp
      omega

/-- Claim C10: a falsy entry (`null` or empty object, modelled `none`) in
a commit's jobs array is skipped entirely by both counting loops — it
changes no bucket and no total — and `total` counts exactly the non-falsy
entries in `get_recent_commits_with_jobs` (in `get_recent_commit_status`
`total` is the sum of the four buckets over non-falsy entries). -/
theorem falsy_job_entries_skipped :
    (∀ pre post : List (Option Job),
      jobCountsRecent (pre ++ none :: post) = jobCountsRecent (pre ++ post)) ∧
    (∀ pre post : List (Option Job),
      jobCountsStatus (pre ++ none :: post) = jobCountsStatus (pre ++ post)) ∧
    (∀ jobs : List (Option Job),
      (jobCountsRecent jobs).total = (jobs.filterMap id).length) := by
  refine ⟨fun pre post => ?_, fun pre post => ?_, fun jobs => ?_⟩
  · simp [jobCountsRecent, List.foldl_append, List.foldl_cons, jobCountsRecentStep]
  · simp [jobCountsStatus, List.foldl_append, List.foldl_cons, jobCountsStatusStep]
  · simpa using jobCountsRecent_fold_total jobs {}

theorem jobCountsRecentStep_sum_le (c : JobCounts) (oj : Option Job)
    (h : c.success + c.failure + c.pending + c.skipped ≤ c.total) :
    (jobCountsRecentStep c oj).success + (jobCountsRecentStep c oj).failure +
      (jobCountsRecentStep c oj).pending + (jobCountsRecentStep c oj).skipped ≤
      (jobCountsRecentStep c oj).total := by
  cases oj with
  | none => simpa [jobCountsRecentStep] using h
  | some j => cases hc : classifyRecent j <;> simp [jobCountsRecentStep, hc] <;> omega

theorem classifyRecent_not_queued (j : Job) :
    classifyRecent j ≠ .queued ∧ classifyRecent j ≠ .inProgress := by
  constructor <;> (intro h; unfold classifyRecent at h; dsimp only at h; split_ifs at h)

theorem jobCountsRecentStep_sum_eq (c : JobCounts) (j : Job)
    (h : c.success + c.failure + c.pending + c.skipped = c.total)
    (hj : classifyRecent j ≠ .other) :
    (jobCountsRecentStep c (some j)).success + (jobCountsRecentStep c (some j)).failure +
      (jobCountsRecentStep c (some j)).pending + (jobCountsRecentStep c (some j)).skipped =
      (jobCountsRecentStep c (some j)).total := by
  cases hc : classifyRecent j <;> simp [jobCountsRecentStep, hc] <;>
    first
      | omega
      | exact absurd hc hj
      | exact absurd hc (classifyRecent_not_queued j).1
      | exact absurd hc (classifyRecent_not_queued j).2

theorem jobCountsRecent_fold_sum_le : ∀ (l : List (Option Job)) (c : JobCounts),
    c.success + c.failure + c.pending + c.skipped ≤ c.total →
    (l.foldl jobCountsRecentStep c).success + (l.foldl jobCountsRecentStep c).failure +
      (l.foldl jobCountsRecentStep c).pending + (l.foldl jobCountsRecentStep c).skipped ≤
      (l.foldl jobCountsRecentStep c).total := by
  intro l
  induction l with
  | nil => intro c h; simpa using h
  | cons oj t ih =>
    intro c h
    simpa [List.foldl_cons] using ih _ (jobCountsRecentStep_sum_le c oj h)

theorem jobCountsRecent_fold_sum_eq : ∀ (l : List (Option Job)) (c : JobCounts),
    c.success + c.failure + c.pending + c.skipped = c.total →
    (∀ j : Job, some j ∈ l → classifyRecent j ≠ .other) →
    (l.foldl jobCountsRecentStep c).success + (l.foldl jobCountsRecentStep c).failure +
      (l.foldl jobCountsRecentStep c).pending + (l.foldl jobCountsRecentStep c).skipped =
      (l.foldl jobCountsRecentStep c).total := by
  intro l
  induction l with
  | nil => intro c h _; simpa using h
  | cons oj t ih =>
    intro c h hall
    cases oj with
    | none =>
      simpa [List.foldl_cons, jobCountsRecentStep] using
        ih c h (fun j hj => hall j (List.mem_cons_of_mem _ hj))
    | some j =>
      simpa [List.foldl_cons] using
        ih _ (jobCountsRecentStep_sum_eq c j h (hall j (List.mem_cons_self _ _)))
          (fun j' hj' => hall j' (List.mem_cons_of_mem _ hj'))

theorem statusCountsStep_sum_le (c : StatusCounts) (j : Job)
    (h : c.success + c.failure + c.pending + c.skipped + c.queued + c.inProgress ≤ c.total) :
    (statusCountsStep c j).success + (statusCountsStep c j).failure +
      (statusCountsStep c j).pending + (statusCountsStep c j).skipped +
      (statusCountsStep c j).queued + (statusCountsStep c j).inProgress ≤
      (statusCountsStep c j).total := by
  cases hc : classifyJobSummary j <;> simp [statusCountsStep, hc] <;> omega

theorem statusCountsStep_sum_eq (c : StatusCounts) (j : Job)
    (h : c.success + c.failure + c.pending + c.skipped + c.queued + c.inProgress = c.total)
    (hj : classifyJobSummary j ≠ .other) :
    (statusCountsStep c j).success + (statusCountsStep c j).failure +
      (statusCountsStep c j).pending + (statusCountsStep c j).skipped +
      (statusCountsStep c j).queued + (statusCountsStep c j).inProgress =
      (statusCountsStep c j).total := by
  cases hc : classifyJobSummary j <;> simp [statusCountsStep, hc] <;>
    first | omega | exact absurd hc hj

theorem statusCounts_fold_sum_le : ∀ (l : List Job) (c : StatusCounts),
    c.success + c.failure + c.pending + c.skipped + c.queued + c.inProgress ≤ c.total →
    (l.foldl statusCountsStep c).success + (l.foldl statusCountsStep c).failure +
      (l.foldl statusCountsStep c).pending + (l.foldl statusCountsStep c).skipped +
      (l.foldl statusCountsStep c).queued + (l.foldl statusCountsStep c).inProgress ≤
      (l.foldl statusCountsStep c).total := by
  intro l
  induction l with
  | nil => intro c h; simpa using h
  | cons j t ih =>
    intro c h
    simpa [List.foldl_cons] using ih _ (statusCountsStep_sum_le c j h)

theorem statusCounts_fold_sum_eq : ∀ (l : List Job) (c : StatusCounts),
    c.success + c.failure + c.pending + c.skipped + c.queued + c.inProgress = c.total →
    (∀ j ∈ l, classifyJobSummary j ≠ .other) →
    (l.foldl statusCountsStep c).success + (l.foldl statusCountsStep c).failure +
      (l.foldl statusCountsStep c).pending + (l.foldl statusCountsStep c).skipped +
      (l.foldl statusCountsStep c).queued + (l.foldl statusCountsStep c).inProgress =
      (l.foldl statusCountsStep c).total := by
  intro l
  induction l with
  | nil => intro c h _; simpa using h
  | cons j t ih =>
    intro c h hall
    simpa [List.foldl_cons] using
      ih _ (statusCountsStep_sum_eq c j h (hall j (List.mem_cons_self _ _)))
        (fun j' hj' => hall j' (List.mem_cons_of_mem _ hj'))

/-- Counterexample to claim C4: for the job list containing the single
completed-but-cancelled job `jobCancelled`, the four counted buckets sum
to 0 while `total` is 1, both in `get_recent_commits_with_jobs` and in
`get_job_summary`; the claimed equality fails. -/
theorem job_counts_sum_eq_total_cex :
    (jobCountsRecent [some jobCancelled]).success + (jobCountsRecent [some jobCancelled]).failure +
      (jobCountsRecent [some jobCancelled]).pending + (jobCountsRecent [some jobCancelled]).skipped ≠
      (jobCountsRecent [some jobCancelled]).total ∧
    (statusCountsOf [jobCancelled]).success + (statusCountsOf [jobCancelled]).failure +
      (statusCountsOf [jobCancelled]).pending + (statusCountsOf [jobCancelled]).skipped ≠
      (statusCountsOf [jobCancelled]).total := by
  decide

/-- Claim C4 (amended): in `get_recent_commit_status` the four buckets
always sum to `total` (it is defined as their sum); in
`get_recent_commits_with_jobs` and `get_job_summary` the counted buckets
sum to at most `total`, with equality exactly guaranteed when every job
falls in a counted class (in `get_job_summary` the `queued` and
`in_progress` buckets participate in the sum). -/
theorem job_counts_sum_bounds :
    (∀ jobs : List (Option Job),
      (jobCountsStatus jobs).success + (jobCountsStatus jobs).failure +
        (jobCountsStatus jobs).pending + (jobCountsStatus jobs).skipped =
        (jobCountsStatus jobs).total) ∧
    (∀ jobs : List (Option Job),
      (jobCountsRecent jobs).success + (jobCountsRecent jobs).failure +
        (jobCountsRecent jobs).pending + (jobCountsRecent jobs).skipped ≤
        (jobCountsRecent jobs).total) ∧
    (∀ jobs : List (Option Job), (∀ j : Job, some j ∈ jobs → classifyRecent j ≠ .other) →
      (jobCountsRecent jobs).success + (jobCountsRecent jobs).failure +
        (jobCountsRecent jobs).pending + (jobCountsRecent jobs).skipped =
        (jobCountsRecent jobs).total) ∧
    (∀ jobs : List Job,
      (statusCountsOf jobs).success + (statusCountsOf jobs).failure +
        (statusCountsOf jobs).pending + (statusCountsOf jobs).skipped +
        (statusCountsOf jobs).queued + (statusCountsOf jobs).inProgress ≤
        (statusCountsOf jobs).total) ∧
    (∀ jobs : List Job, (∀ j ∈ jobs, classifyJobSummary j ≠ .other) →
      (statusCountsOf jobs).success + (statusCountsOf jobs).failure +
        (statusCountsOf jobs).pending + (statusCountsOf jobs).skipped +
        (statusCountsOf jobs).queued + (statusCountsOf jobs).inProgress =
        (statusCountsOf jobs).total) := by
  refine ⟨fun jobs => rfl, fun jobs => ?_, fun jobs h => ?_, fun jobs => ?_, fun jobs h => ?_⟩
  · simpa [jobCountsRecent] using jobCountsRecent_fold_sum_le jobs {} (by simp)
  · simpa [jobCountsRecent] using jobCountsRecent_fold_sum_eq jobs {} (by simp) h
  · simpa [statusCountsOf] using statusCounts_fold_sum_le jobs {} (by simp)
  · simpa [statusCountsOf] using statusCounts_fold_sum_eq jobs {} (by simp) h

/-- Witness for C4 (amended): on a list holding one successful job the
conditional equalities apply and the sums equal the totals. -/
theorem job_counts_sum_bounds_witness :
    (jobCountsRecent [some jobSuccessPlain]).success +
      (jobCountsRecent [some jobSuccessPlain]).failure +
      (jobCountsRecent [some jobSuccessPlain]).pending +
      (jobCountsRecent [some jobSuccessPlain]).skipped =
      (jobCountsRecent [some jobSuccessPlain]).total ∧
    (statusCountsOf [jobSuccessPlain]).success + (statusCountsOf [jobSuccessPlain]).failure +
      (statusCountsOf [jobSuccessPlain]).pending + (statusCountsOf [jobSuccessPlain]).skipped +
      (statusCountsOf [jobSuccessPlain]).queued + (statusCountsOf [jobSuccessPlain]).inProgress =
      (statusCountsOf [jobSuccessPlain]).total := by
  constructor
  · exact job_counts_sum_bounds.2.2.1 [some jobSuccessPlain]
      (by intro j hj; simp at hj; subst hj; decide)
  · exact job_counts_sum_bounds.2.2.2.2 [jobSuccessPlain]
      (by intro j hj; simp at hj; subst hj; decide)

/-- Claim C8: on the same upstream grid, two runs of
`get_recent_commits_with_jobs` that differ only in the
`include_success`/`include_pending`/`include_failures` flags return the
same commits with identical `job_counts` and `status`; the flags can only
change the attached jobs lists. -/
theorem include_flags_do_not_affect_counts :
    ∀ (shaGrid : List Commit) (jobNames : List String)
      (jobNamePattern failureLinePattern : Option (String → Bool)) (per_page : Nat)
      (s₁ p₁ f₁ s₂ p₂ f₂ : Bool),
      (resultCommits s₁ p₁ f₁ jobNamePattern failureLinePattern jobNames shaGrid per_page).map
        (fun ci => (ci.sha, ci.job_counts, ci.status)) =
      (resultCommits s₂ p₂ f₂ jobNamePattern failureLinePattern jobNames shaGrid per_page).map
        (fun ci => (ci.sha, ci.job_counts, ci.status)) := by
  intro shaGrid jobNames jnp flp per_page s₁ p₁ f₁ s₂ p₂ f₂
  simp only [resultCommits, List.map_map]
  rfl

theorem failureLineFilterInclude_some_some (p : String → Bool) (job : Job)
    (lines : List String) (hfl : job.failureLines = some lines) (b : Bool) :
    failureLineFilterInclude (some p) job b = if b && !(lines.any p) then false else b := by
  unfold failureLineFilterInclude
  rw [hfl]

/-- Counterexample to claim C3: with `include_success` set and an active
failure-line filter, the success job `jobSuccessPlain` — which has **no**
`failureLines` key — passes the filter of `get_recent_commits_with_jobs`
(the filter is only applied when the key is present), so it is not true
that every attached job has a matching failure line. -/
theorem failure_line_filter_missing_key_cex :
    ¬ (∀ (incS incP incF : Bool) (jnp : Option (String → Bool)) (p : String → Bool) (job : Job),
        includeJobRecent incS incP incF jnp (some p) job = true →
        ∃ lines, job.failureLines = some lines ∧ lines.any p = true) := by
  intro h
  obtain ⟨lines, hl, -⟩ := h true false false none (fun _ => false) jobSuccessPlain rfl
  simp [jobSuccessPlain] at hl

/-- Claim C3 (amended): when `failure_line_filter_regex` is active, every
job that passes the filter of `get_recent_commits_with_jobs` either has
no `failureLines` key at all, or has at least one failure line matching
the pattern; in particular a job whose `failureLines` list is present but
empty, or matches nowhere, never passes. -/
theorem failure_line_filter_matches_or_missing :
    ∀ (incS incP incF : Bool) (jnp : Option (String → Bool)) (p : String → Bool) (job : Job),
      includeJobRecent incS incP incF jnp (some p) job = true →
      job.failureLines = none ∨
        ∃ lines, job.failureLines = some lines ∧ lines.any p = true := by
  intro incS incP incF jnp p job h
  cases hfl : job.failureLines with
  | none => exact Or.inl rfl
  | some lines =>
    refine Or.inr ⟨lines, rfl, ?_⟩
    unfold includeJobRecent at h
    rw [failureLineFilterInclude_some_some p job lines hfl] at h
    by_cases hany : lines.any p = true
    · exact hany
    · exfalso
      simp only [Bool.not_eq_true] at hany
      rw [hany] at h
      cases hB : nameFilterInclude jnp job (statusFlagInclude incS incP incF job) <;>
        rw [hB] at h <;> simp at h

/-- Witness for C3 (amended): the job `jobSuccessHidden` passes the
filter with a pattern matching its failure line, and indeed has a
matching `failureLines` entry; and the filter result on
`jobSuccessEmptyLines` (key present, empty list) is `false`. -/
theorem failure_line_filter_matches_or_missing_witness :
    (jobSuccessHidden.failureLines = none ∨
      ∃ lines, jobSuccessHidden.failureLines = some lines ∧
        lines.any (fun l => l == "FAIL: test_x") = true) ∧
    includeJobRecent true false false none (some (fun l => l == "FAIL: test_x"))
      jobSuccessEmptyLines = false := by
  constructor
  · exact failure_line_filter_matches_or_missing true false false none
      (fun l => l == "FAIL: test_x") jobSuccessHidden rfl
  · rfl

theorem makeRequestAux_ok {t : Nat → Except String String} {v : String} (url : String)
    (rr k : Nat) (h : t k = .ok v) : makeRequestAux t url rr k = (.ok v, k + 1) := by
  cases rr <;> simp [makeRequestAux, h]

theorem makeRequestAux_retry {t : Nat → Except String String} {e : String} (url : String)
    (rr k : Nat) (h : t k = .error e) :
    makeRequestAux t url (rr + 1) k = makeRequestAux t url rr (k + 1) := by
  simp [makeRequestAux, h]

theorem makeRequestAux_exhausted {t : Nat → Except String String} {e : String} (url : String)
    (k : Nat) (h : t k = .error e) :
    makeRequestAux t url 0 k =
      (.error ("Failed to make request to " ++ url ++ ": " ++ e), k + 1) := by
  simp [makeRequestAux, h]

theorem makeRequestAux_all_fail {t : Nat → Except String String} (url : String)
    (hfail : ∀ i, ∃ e, t i = .error e) : ∀ (rr k : Nat),
    (makeRequestAux t url rr k).2 = k + rr + 1 ∧
      ∀ v, (makeRequestAux t url rr k).1 ≠ .ok v := by
  intro rr
  induction rr with
  | zero =>
    intro k
    obtain ⟨e, he⟩ := hfail k
    rw [makeRequestAux_exhausted url k he]
    exact ⟨rfl, fun v h => Except.noConfusion h⟩
  | succ rr ih =>
    intro k
    obtain ⟨e, he⟩ := hfail k
    rw [makeRequestAux_retry url rr k he]
    refine ⟨?_, (ih (k + 1)).2⟩
    rw [(ih (k + 1)).1]
    omega

/-- Counterexample to claim C2: with `retry_attempts = 3` and a transport
that always fails, `_make_request` invokes the transport 4 times (the
initial call plus 3 retries) before raising — not exactly 3 times as
claimed. -/
theorem retry_exhaustion_invocation_count_cex :
    (make_request transportAlwaysFails "url" 3).2 = 4 ∧
      (make_request transportAlwaysFails "url" 3).2 ≠ 3 := by
  decide

/-- Claim C2 (amended): with `retry_attempts = 3` and a transport failing
exactly twice then succeeding, `_make_request` returns the success result
after exactly 3 transport invocations; with a transport that always
fails, it raises `PyTorchHudAPIError` (never returns a parsed result)
after exactly `retry_attempts + 1` transport invocations. -/
theorem make_request_retry_behaviour :
    (∀ (t : Nat → Except String String) (url v e₀ e₁ : String),
      t 0 = .error e₀ → t 1 = .error e₁ → t 2 = .ok v →
      make_request t url 3 = (.ok v, 3)) ∧
    (∀ (t : Nat → Except String String) (url : String) (retry_attempts : Nat),
      (∀ i, ∃ e, t i = .error e) →
      (make_request t url retry_attempts).2 = retry_attempts + 1 ∧
        ∀ v, (make_request t url retry_attempts).1 ≠ .ok v) := by
  constructor
  · intro t url v e₀ e₁ h0 h1 h2
    have s0 : make_request t url 3 = makeRequestAux t url 2 1 := makeRequestAux_retry url 2 0 h0
    have s1 : makeRequestAux t url 2 1 = makeRequestAux t url 1 2 := makeRequestAux_retry url 1 1 h1
    rw [s0, s1]
    exact makeRequestAux_ok url 1 2 h2
  · intro t url retry_attempts hfail
    have h := makeRequestAux_all_fail url hfail retry_attempts 0
    exact ⟨by rw [show make_request t url retry_attempts = makeRequestAux t url retry_attempts 0
      from rfl, h.1]; omega, h.2⟩

/-- Witness for C2 (amended): on the concrete fail-twice-then-succeed
transport the request succeeds after 3 invocations; on the concrete
always-failing transport with 3 retry attempts, 4 invocations are made
and no parsed result is returned. -/
theorem make_request_retry_behaviour_witness :
    make_request transportFailTwice "url" 3 = (.ok "json", 3) ∧
      (make_request transportAlwaysFails "url" 3).2 = 3 + 1 := by
  constructor
  · exact make_request_retry_behaviour.1 transportFailTwice "url" "json"
      "connection reset" "connection reset" rfl rfl rfl
  · exact (make_request_retry_behaviour.2 transportAlwaysFails "url" 3
      (fun i => ⟨"connection reset", rfl⟩)).1

set_option maxRecDepth 8192 in
/-- Claim C7: with the default 10,240-byte cap, a serialized result
longer than the cap is returned by `safe_json_dumps` at length at most
10,240, ending in the literal truncation warning and retaining at least
200 characters of payload; a result at or below the cap is returned
unmodified. -/
theorem safe_json_dumps_size_governance :
    (∀ json_str : String, MAX_RESPONSE_SIZE < json_str.length →
      (safe_json_dumps json_str).length ≤ MAX_RESPONSE_SIZE ∧
      ∃ payload : List Char,
        (safe_json_dumps json_str).data = payload ++ warning_msg.data ∧
        200 ≤ payload.length) ∧
    (∀ json_str : String, json_str.length ≤ MAX_RESPONSE_SIZE →
      safe_json_dumps json_str = json_str) := by
  constructor
  · intro s h
    have hmax : MAX_RESPONSE_SIZE = 10240 := rfl
    have hcond : ¬ (s.length ≤ MAX_RESPONSE_SIZE) := by omega
    have hres : safe_json_dumps s = String.mk (s.data.take 9871) ++ warning_msg := by
      unfold safe_json_dumps
      rw [if_neg hcond]
      rfl
    have hdatalen : s.data.length = s.length := rfl
    have htake : (s.data.take 9871).length = 9871 := by
      rw [List.length_take]
      omega
    have hlen : (safe_json_dumps s).length = 10240 := by
      rw [hres, String.length_append, String.length_mk, htake]
      decide
    refine ⟨by omega, s.data.take 9871, ?_, by omega⟩
    rw [hres, String.data_append]
  · intro s h
    unfold safe_json_dumps
    rw [if_pos h]

/-- Witness for C7: a 10,241-character string is truncated to within the
cap, and the short string `"json"` is returned unmodified. -/
theorem safe_json_dumps_size_governance_witness :
    (safe_json_dumps (String.mk (List.replicate 10241 'a'))).length ≤ MAX_RESPONSE_SIZE ∧
      safe_json_dumps "json" = "json" := by
  constructor
  · refine (safe_json_dumps_size_governance.1 (String.mk (List.replicate 10241 'a')) ?_).1
    show MAX_RESPONSE_SIZE < (List.replicate 10241 'a').length
    rw [List.length_replicate]
    norm_num [MAX_RESPONSE_SIZE]
  · exact safe_json_dumps_size_governance.2 "json" (by decide)

/-- Counterexample to claim C5: the default `test_failed` pattern
`FAILED.*test_` is compiled without `re.IGNORECASE` and without an inline
`(?i)` flag, so changing only the letter case of a line changes whether
it matches: not every default pattern of `extract_log_patterns` is
case-insensitive. -/
theorem default_patterns_case_insensitive_cex :
    sameLetters "FAILED 1 test_foo" "failed 1 test_foo" ∧
      pattern_test_failed.search "FAILED 1 test_foo" = true ∧
      pattern_test_failed.search "failed 1 test_foo" = false := by
  refine ⟨by decide, by decide, by decide⟩

/-- Claim C5 (amended): of the eight default patterns of
`extract_log_patterns`, exactly the three that carry an inline `(?i)`
flag — `error`, `exception`, `warning` — are case-insensitive (their
match is invariant under any change of letter case); the other five
(`test_failed`, `test_results`, `cuda_error`, `out_of_memory`,
`build_failed`) are case-sensitive. -/
theorem default_patterns_case_sensitivity :
    ((∀ s t : String, sameLetters s t →
        pattern_error.search s = pattern_error.search t) ∧
     (∀ s t : String, sameLetters s t →
        pattern_exception.search s = pattern_exception.search t) ∧
     (∀ s t : String, sameLetters s t →
        pattern_warning.search s = pattern_warning.search t)) ∧
    ((¬ ∀ s t : String, sameLetters s t →
        pattern_test_failed.search s = pattern_test_failed.search t) ∧
     (¬ ∀ s t : String, sameLetters s t →
        pattern_test_results.search s = pattern_test_results.search t) ∧
     (¬ ∀ s t : String, sameLetters s t →
        pattern_cuda_error.search s = pattern_cuda_error.search t) ∧
     (¬ ∀ s t : String, sameLetters s t →
        pattern_out_of_memory.search s = pattern_out_of_memory.search t) ∧
     (¬ ∀ s t : String, sameLetters s t →
        pattern_build_failed.search s = pattern_build_failed.search t)) := by
  refine ⟨⟨fun s t h => RE.search_congr (RE.ciLit_caseBlind _) h,
           fun s t h => RE.search_congr (RE.ciLit_caseBlind _) h,
           fun s t h => RE.search_congr (RE.ciLit_caseBlind _) h⟩,
          fun h => ?_, fun h => ?_, fun h => ?_, fun h => ?_, fun h => ?_⟩
  · exact absurd (h "FAILED 1 test_foo" "failed 1 test_foo" (by decide)) (by decide)
  · exact absurd (h "Ran 5 tests and 2 failures" "ran 5 tests and 2 failures" (by decide))
      (by decide)
  · exact absurd (h "CUDA error" "cuda error" (by decide)) (by decide)
  · exact absurd (h "OOM" "oom" (by decide)) (by decide)
  · exact absurd (h "Build failed" "build FAILED" (by decide)) (by decide)

/-- Witness for C5 (amended): the case-insensitive `error`, `exception`
and `warning` patterns match concrete lines identically after a case
change. -/
theorem default_patterns_case_sensitivity_witness :
    pattern_error.search "Some Error: msg" = pattern_error.search "SOME ERROR: MSG" ∧
    pattern_exception.search "Exception: e" = pattern_exception.search "EXCEPTION: E" ∧
    pattern_warning.search "warning: w" = pattern_warning.search "Warning: W" := by
  refine ⟨default_patterns_case_sensitivity.1.1 _ _ (by decide),
    default_patterns_case_sensitivity.1.2.1 _ _ (by decide),
    default_patterns_case_sensitivity.1.2.2 _ _ (by decide)⟩

/-- Counterexample to claim C9: not **every** failure inside
`download_log_to_file` yields the structured `{success: false, ...}`
result — `os.makedirs` runs before the `try` block, so in the concrete
environment `envMakedirsFails` (directory creation fails) the function
raises instead of returning a structured result. -/
theorem download_log_raises_outside_try_cex :
    ¬ (∀ (env : DownloadEnv) (job_id : Int) (e : String),
        download_log_to_file env job_id ≠ .raised e) := by
  intro h
  exact h envMakedirsFails 123 "Permission denied" rfl

/-- Claim C9 (amended): a log-analysis operation given a non-existent
path returns the structured result `{success: false, error: "File not
found: <path>"}` and raises nothing, for all three of
`extract_log_patterns`, `extract_test_results`, `filter_log_sections`;
and `download_log_to_file` returns `{success: false, error, job_id}` for
every failure from the `try` block onward (in particular a failing
wrapped `download_log` call), raising only when the `temp_logs`
directory creation before the `try` block fails. -/
theorem log_tools_structured_errors :
    (∀ (fs : String → Option (List String)) (path : String)
        (ps : Option (List (String × RE))), fs path = none →
      extract_log_patterns fs path ps = .failure ("File not found: " ++ path)) ∧
    (∀ (fs : String → Option (List String)) (path : String), fs path = none →
      extract_test_results fs path = .failure ("File not found: " ++ path)) ∧
    (∀ (fs : String → Option (List String)) (path : String)
        (sp ep : Option (String → Bool)) (ml : Nat), fs path = none →
      filter_log_sections fs path sp ep ml = .failure ("File not found: " ++ path)) ∧
    (∀ (env : DownloadEnv) (job_id : Int), env.makedirs = .ok () →
      ∀ e, download_log_to_file env job_id ≠ .raised e) ∧
    (∀ (env : DownloadEnv) (job_id : Int) (e : String),
      env.makedirs = .ok () → env.download_log = .error e →
      download_log_to_file env job_id = .failure e job_id) := by
  refine ⟨fun fs path ps h => ?_, fun fs path h => ?_, fun fs path sp ep ml h => ?_,
    fun env job_id hmk e => ?_, fun env job_id e hmk hdl => ?_⟩
  · unfold extract_log_patterns; rw [h]
  · unfold extract_test_results; rw [h]
  · unfold filter_log_sections; rw [h]
  · unfold download_log_to_file
    rw [hmk]
    cases hd : env.download_log <;> cases hw : env.write_file <;> cases hg : env.getsize <;>
      simp [hd, hw, hg]
  · unfold download_log_to_file
    rw [hmk, hdl]

/-- Witness for C9 (amended): concrete not-found results for the three
log-analysis tools on an absent path, and the structured failure of
`download_log_to_file` in the concrete environment where the wrapped
download raises. -/
theorem log_tools_structured_errors_witness :
    extract_log_patterns (fun _ => none) "/tmp/x.log" none =
      .failure ("File not found: " ++ "/tmp/x.log") ∧
    extract_test_results (fun _ => none) "/tmp/x.log" =
      .failure ("File not found: " ++ "/tmp/x.log") ∧
    filter_log_sections (fun _ => none) "/tmp/x.log" none none 100 =
      .failure ("File not found: " ++ "/tmp/x.log") ∧
    download_log_to_file envDownloadFails 7 =
      .failure "Failed to download log for job 7: 404" 7 ∧
    download_log_to_file envDownloadFails 7 ≠ .raised "boom" := by
  refine ⟨log_tools_structured_errors.1 _ _ _ rfl,
    log_tools_structured_errors.2.1 _ _ rfl,
    log_tools_structured_errors.2.2.1 _ _ _ _ _ rfl,
    log_tools_structured_errors.2.2.2.2 _ _ _ rfl rfl,
    log_tools_structured_errors.2.2.2.1 envDownloadFails 7 rfl "boom"⟩

theorem wfStep_total_duration (w : WorkflowStats) (j : Job) :
    (wfStep w j).total_duration =
      w.total_duration + (if j.durationS.getD 0 > 0 then j.durationS.getD 0 else 0) := by
  have hiff : (j.durationS.getD 0 ≠ 0 ∧ j.durationS.getD 0 > 0) ↔ j.durationS.getD 0 > 0 :=
    ⟨fun h => h.2, fun h => ⟨ne_of_gt h, h⟩⟩
  unfold wfStep
  dsimp only
  cases hc : classifyWorkflow j <;> simp only [hc] <;> split_ifs with hd <;>
    simp_all [hiff]

theorem wfFold_total_duration : ∀ (l : List Job) (w : WorkflowStats),
    (l.foldl wfStep w).total_duration =
      w.total_duration +
        (l.map (fun j => if j.durationS.getD 0 > 0 then j.durationS.getD 0 else 0)).sum := by
  intro l
  induction l with
  | nil => intro w; simp
  | cons j t ih =>
    intro w
    simp only [List.foldl_cons, List.map_cons, List.sum_cons]
    rw [ih, wfStep_total_duration]
    ring

/-- Counterexample to claim C6: in the workflow aggregate for run `123`
built from the single in-progress job `jobInProgressTimed`
(`durationS = 100`, not completed), `total_duration` is 100 while the sum
of `durationS` over the workflow's completed jobs is 0 — `total_duration`
is not the completed-jobs duration sum. -/
theorem total_duration_completed_sum_cex :
    (workflowStats "123" [jobInProgressTimed]).total_duration = 100 ∧
      completedDurationSum "123" [jobInProgressTimed] = 0 ∧
      (workflowStats "123" [jobInProgressTimed]).total_duration ≠
        completedDurationSum "123" [jobInProgressTimed] := by
  have hkey : (workflowKeyOf jobInProgressTimed == some "123") = true := by decide
  have hcls : classifyWorkflow jobInProgressTimed = .inProgress := by decide
  have h1 : (workflowStats "123" [jobInProgressTimed]).total_duration = 100 := by
    unfold workflowStats
    rw [show [jobInProgressTimed].filter (fun j => workflowKeyOf j == some "123") =
      [jobInProgressTimed] by simp [List.filter, hkey]]
    rw [wfFold_total_duration]
    simp [jobInProgressTimed]
  have h2 : completedDurationSum "123" [jobInProgressTimed] = 0 := by
    simp [completedDurationSum, hcls]
  refine ⟨h1, h2, by rw [h1, h2]; norm_num⟩

/-- Claim C6 (amended): in every workflow aggregate of
`get_workflow_summary`, `total_duration` equals the sum of the positive
`durationS` values over **all** of the workflow's jobs (completed or
not); `avg_duration` equals that sum divided by `success + failure` and
`success_rate` equals `success / (success + failure) * 100`, both `0`
when `success + failure` is `0`. -/
theorem workflow_aggregate_formulas :
    ∀ (key : String) (jobs : List Job),
      (workflowStats key jobs).total_duration = positiveDurationSum key jobs ∧
      wfDerived (workflowStats key jobs) =
        (if (workflowStats key jobs).success + (workflowStats key jobs).failure > 0 then
          (positiveDurationSum key jobs /
              (((workflowStats key jobs).success + (workflowStats key jobs).failure : Nat) : ℚ),
            (((workflowStats key jobs).success : Nat) : ℚ) /
              (((workflowStats key jobs).success + (workflowStats key jobs).failure : Nat) : ℚ)
              * 100)
        else (0, 0)) := by
  intro key jobs
  have h1 : (workflowStats key jobs).total_duration = positiveDurationSum key jobs := by
    unfold workflowStats positiveDurationSum
    rw [wfFold_total_duration]
    simp
  refine ⟨h1, ?_⟩
  unfold wfDerived
  dsimp only
  rw [h1]
